import Mathlib

/-!
Shallow embedding of the zkcli-block-explorer module lifecycle controller.

The definitions below are translated from the repository's TypeScript
source (the `SetupModule` class and its helpers).  Effectful external
collaborators (the docker orchestrator, git, the HTTP endpoints, the
filesystem) are modelled by passing their observed outcomes in explicitly;
every function is otherwise a direct transcription of the source code.
-/

namespace BlockExplorer

/-! ## JavaScript string and number primitives

Models of the JS built-ins the source relies on, at the level of
character lists so that all proofs reduce in the kernel. -/

/-- JS `sub.isPrefix`-style helper: does `rest` contain `sub` as a
contiguous run, at any position?  Backs the model of
`String.prototype.includes`. -/
def charsContain (sub : List Char) : List Char → Bool
  | [] => sub.isEmpty
  | c :: cs => sub.isPrefixOf (c :: cs) || charsContain sub cs

/-- JS `s.includes(sub)` on strings. -/
def jsIncludes (s sub : String) : Bool :=
  charsContain sub.toList s.toList

/-- JS `s.startsWith(pre)` on strings. -/
def jsStartsWith (s pre : String) : Bool :=
  pre.toList.isPrefixOf s.toList

/-- JS `String.prototype.split(sep)` on character lists: splits at every
occurrence of `sep`; the empty string yields `[[]]`. -/
def splitChars (sep : Char) : List Char → List (List Char)
  | [] => [[]]
  | c :: cs =>
    let rest := splitChars sep cs
    if c = sep then [] :: rest
    else
      match rest with
      | r :: rs => (c :: r) :: rs
      | [] => [[c]]

/-- JS `s.split(sep)` for a one-character separator. -/
def jsSplit (s : String) (sep : Char) : List String :=
  (splitChars sep s.toList).map (fun cs => String.mk cs)

/-- Value of a decimal digit character, `none` for any other character. -/
def decDigit? (c : Char) : Option Nat :=
  if c.isDigit then some (c.toNat - 48) else none

/-- Accumulating decimal evaluation; `none` as soon as a non-digit appears. -/
def decValAux : List Char → Nat → Option Nat
  | [], acc => some acc
  | c :: cs, acc =>
    match decDigit? c with
    | some d => decValAux cs (acc * 10 + d)
    | none => none

/-- Value of a non-empty all-decimal-digit character list, else `none`. -/
def decDigitsVal : List Char → Option Nat
  | [] => none
  | cs => decValAux cs 0

/-- JS `Number(component) || 0` as used by the version comparison: a decimal
(optionally negative) component evaluates numerically; every other string —
where `Number` yields `NaN` or `0`, both falsy — collapses to `0`, exactly as
the source's `v[i] || 0` does.  (Exotic numeric spellings such as exponent or
hexadecimal notation are outside the model; version components are decimal.) -/
def jsNumComponent (cs : List Char) : Int :=
  match cs with
  | '-' :: rest =>
    match decDigitsVal rest with
    | some n => -(n : Int)
    | none => 0
  | _ =>
    match decDigitsVal cs with
    | some n => (n : Int)
    | none => 0

/-- Value of a hexadecimal digit character, `none` for any other. -/
def hexDigit? (c : Char) : Option Nat :=
  if c.isDigit then some (c.toNat - 48)
  else if 97 ≤ c.toNat ∧ c.toNat ≤ 102 then some (c.toNat - 87)
  else if 65 ≤ c.toNat ∧ c.toNat ≤ 70 then some (c.toNat - 55)
  else none

/-- Longest hexadecimal-digit run at the head of the list; `none` when no
digit was seen at all (JS `parseInt` returns `NaN` then). -/
def hexValAux : List Char → Nat → Bool → Option Nat
  | [], acc, seen => if seen then some acc else none
  | c :: cs, acc, seen =>
    match hexDigit? c with
    | some d => hexValAux cs (acc * 16 + d) true
    | none => if seen then some acc else none

/-- JS `parseInt(s, 16)`: skip leading whitespace, optional sign, optional
`0x`/`0X` prefix, then the longest run of hex digits; `none` models `NaN`. -/
def jsParseIntHex (s : String) : Option Int :=
  let cs := s.toList.dropWhile (fun c => c.isWhitespace)
  let signed : Bool × List Char :=
    match cs with
    | '-' :: rest => (true, rest)
    | '+' :: rest => (false, rest)
    | _ => (false, cs)
  let body : List Char :=
    match signed.2 with
    | '0' :: 'x' :: rest => rest
    | '0' :: 'X' :: rest => rest
    | _ => signed.2
  match hexValAux body 0 false with
  | none => none
  | some n => some (if signed.1 then -(n : Int) else (n : Int))

/-! ## compareSemanticVersions (src/unnamed/part_000, lines 63-82) -/

/-- Body of the source's `for (let i = 0; i < Math.max(..); i++)` loop: at
index `i` the two components are read (`v[i] || 0` for a missing or
non-numeric entry, modelled by `getD i 0`) and the first strict inequality
decides the result; `fuel` counts the iterations that remain. -/
def compareLoop (v1 v2 : List Int) (i : Nat) : Nat → Int
  | 0 => 0
  | fuel + 1 =>
    let num1 := v1.getD i 0
    let num2 := v2.getD i 0
    if num1 > num2 then 1
    else if num1 < num2 then -1
    else compareLoop v1 v2 (i + 1) fuel

/-- The full loop, from index `0` up to the longer sequence's length. -/
def cmpComponents (v1 v2 : List Int) : Int :=
  compareLoop v1 v2 0 (max v1.length v2.length)

/-- Source's `parseVersion`: `version.split('.').map(Number)` (with the
loop's `|| 0` folded into the component reading). -/
def parseVersion (version : String) : List Int :=
  (splitChars '.' version.toList).map jsNumComponent

/-- Source's `compareSemanticVersions(version1, version2)`. -/
def compareSemanticVersions (version1 version2 : String) : Int :=
  cmpComponents (parseVersion version1) (parseVersion version2)

/-- Comparison as the specification words it: the components are compared
index by index up to the longer sequence's length, a missing trailing
component reading as `0`; the first differing index decides the sign, and
`0` is returned when no index differs. -/
def specCmpList (v1 v2 : List Int) : Int :=
  match (List.range (max v1.length v2.length)).find?
      (fun i => v1.getD i 0 != v2.getD i 0) with
  | some i => if v1.getD i 0 > v2.getD i 0 then 1 else -1
  | none => 0

/-- Specification-side version comparison, for the refinement theorem. -/
def specCompareVersions (version1 version2 : String) : Int :=
  specCmpList (parseVersion version1) (parseVersion version2)

/-! ## Data model (src/unnamed/part_002) -/

/-- NodeInfo["l2"]: the network descriptor `{ chainId, rpcUrl }` identifying
the target chain. -/
structure L2Network where
  chainId : Int
  rpcUrl : String
deriving DecidableEq, Repr

/-- Persisted per-module record: `{ version?: string; l2Network?: NodeInfo["l2"] }`. -/
structure ModuleConfig where
  version : Option String
  l2Network : Option L2Network
deriving DecidableEq, Repr

/-- One entry of `docker.compose.status(...)`: only the `isRunning` flag is
consumed by the module. -/
structure ContainerStatus where
  isRunning : Bool
deriving DecidableEq, Repr

/-! ## isInstalled / isRunning (src/unnamed/part_002, lines 78-90 and 203-205)

The externally observed values — the currently resolved network
(`getL2Network()`) and the orchestrator's status list — are passed in as
arguments. -/

/-- Source's `isInstalled()`.  Note the first guard is JS truthiness:
`!this.moduleConfig.version` is true both for an absent version and for the
empty string, while a stored network object is always truthy. -/
def isInstalled (cfg : ModuleConfig) (l2Network : L2Network)
    (status : List ContainerStatus) : Bool :=
  match cfg.version, cfg.l2Network with
  | some version, some stored =>
    if version = "" then false
    else if l2Network.chainId ≠ stored.chainId ∨ l2Network.rpcUrl ≠ stored.rpcUrl then false
    else decide (status.length ≠ 0)
  | _, _ => false

/-- Source's `isRunning()`: `status(...).some(({ isRunning }) => isRunning)`. -/
def isRunning (status : List ContainerStatus) : Bool :=
  status.any (fun s => s.isRunning)

/-! ## cleanupIndexedData (src/unnamed/part_002, lines 170-183)

The function is modelled as the ordered list of shell commands it issues,
parameterised by the captured output of `docker volume ls` (an
`executeCommand` result, possibly `undefined`). -/

/-- Fixed computed volume name `zkcli-block-explorer_postgres`. -/
def moduleDockerVolume : String := "zkcli-block-explorer_postgres"

/-- Volume-removal commands issued after `docker volume ls`: one exact
`docker volume rm`, and only when the listing contains the computed name. -/
def cleanupVolumeRemovals (volumesLsOutput : Option String) : List String :=
  match volumesLsOutput with
  | some volumes =>
    if jsIncludes volumes moduleDockerVolume then
      ["docker volume rm " ++ moduleDockerVolume]
    else []
  | none => []

/-- Source's `cleanupIndexedData()` as the sequence of commands it runs. -/
def cleanupIndexedData (volumesLsOutput : Option String) : List String :=
  ["docker-compose rm -fsv worker",
   "docker-compose rm -fsv api",
   "docker-compose rm -fsv postgres",
   "docker volume ls"] ++ cleanupVolumeRemovals volumesLsOutput

/-! ## Readiness monitor (src/unnamed/part_001, lines 197-260)

Network responses are passed in per iteration: the indexing API's
`GET /blocks` result and the JSON-RPC `eth_blockNumber` result (its
`result` field when the request succeeds, the stringified error when it
fails). -/

/-- One item of the API's block list; only `number` is consumed. -/
structure Block where
  number : Int
deriving DecidableEq, Repr

/-- Response body of `GET /blocks`. -/
structure ApiResponse where
  items : List Block
deriving DecidableEq, Repr

/-- Source's `getApiLatestBlockNumber()`: `response.items[0]?.number ?? 0`. -/
def getApiLatestBlockNumber (response : ApiResponse) : Int :=
  ((response.items.head?).map Block.number).getD 0

/-- Source's `getNodeLatestBlockNumber()`: on a failed fetch the error is
re-wrapped; on success `parseInt(response.result, 16)` is taken and a `NaN`
raises `Unexpected response`, which the surrounding catch re-wraps too. -/
def getNodeLatestBlockNumber (l2Fetch : Except String String) : Except String Int :=
  match l2Fetch with
  | .error e => .error ("Failed to get latest block number from L2 node: " ++ e)
  | .ok result =>
    match jsParseIntHex result with
    | some blockNumber => .ok blockNumber
    | none =>
      .error ("Failed to get latest block number from L2 node: " ++
        "Error: Unexpected response from L2 node: " ++ result)

/-- Externally observed inputs of one iteration of the readiness loop. -/
structure IterInput where
  apiFetch : Except String ApiResponse
  nodeFetch : Except String String
deriving Repr

instance : Inhabited IterInput := ⟨⟨.error "", .error ""⟩⟩

/-- Observable outcome of the loop over a finite window of iterations:
`pending` means the window was exhausted with the loop still polling. -/
inductive LoopOutcome where
  | success
  | fatal (e : String)
  | pending
deriving DecidableEq, Repr

/-- Source's `waitForFullIndexing()`: a failed API query is swallowed and the
loop retries after the interval; a node-side failure is thrown; equal heights
exit successfully; unequal heights report progress and retry.  Each list
element is one iteration's observations. -/
def waitForFullIndexing : List IterInput → LoopOutcome
  | [] => .pending
  | it :: rest =>
    match it.apiFetch with
    | .error _ => waitForFullIndexing rest
    | .ok response =>
      let apiLatestBlockNumber := getApiLatestBlockNumber response
      match getNodeLatestBlockNumber it.nodeFetch with
      | .error e => .fatal e
      | .ok nodeLatestBlockNumber =>
        if apiLatestBlockNumber = nodeLatestBlockNumber then .success
        else waitForFullIndexing rest

/-- Does this iteration make the loop retry (its API query failed, or both
heights were read and differ)? -/
def iterContinues (it : IterInput) : Bool :=
  match it.apiFetch with
  | .error _ => true
  | .ok response =>
    match getNodeLatestBlockNumber it.nodeFetch with
    | .error _ => false
    | .ok n => getApiLatestBlockNumber response != n

/-- Does this iteration exit the loop successfully (both heights read and
equal)? -/
def iterSucceeds (it : IterInput) : Bool :=
  match it.apiFetch with
  | .error _ => false
  | .ok response =>
    match getNodeLatestBlockNumber it.nodeFetch with
    | .error _ => false
    | .ok n => getApiLatestBlockNumber response == n

/-- The loop reaches an equal-heights iteration: some iteration succeeds and
every one before it merely retried. -/
def succeedsAt (l : List IterInput) : Prop :=
  ∃ i, i < l.length ∧ iterSucceeds (l.getD i default) = true ∧
    ∀ j, j < i → iterContinues (l.getD j default) = true

/-! ## install (src/unnamed/part_002, lines 92-147)

Each external step's outcome is a field of `InstallEnv`, in the order the
source performs them; `install` threads the persisted `ModuleConfig`
explicitly and also records the `.env` content it wrote, so that the
frame/atomicity claims are statable. -/

/-- Outcomes of the external operations `install()` performs, in source
order. -/
structure InstallEnv where
  getNodeInfoL2 : Except String L2Network
  getLatestReleaseVersion : Except String String
  ensureDataDir : Except String Unit
  copyComposeFile : Except String Unit
  writeEnvFile : Except String Unit
  composeCreate : Except String Unit
  writeAppConfig : Except String Unit
  dockerCpError : Option String
deriving Repr

/-- What one call to `install()` leaves behind: the persisted config, the
`.env` content written (if the write step was reached and succeeded), and
the thrown error if any. -/
structure InstallResult where
  config : ModuleConfig
  envFileWritten : Option String
  result : Except String Unit
deriving Repr

/-- Model of `os.EOL` (the POSIX line separator). -/
def osEOL : String := "\n"

/-- Source's `l2Network.rpcUrl.split(":").at(-1) || "3050"`: the last
colon-separated segment, read as `"3050"` only when falsy (empty). -/
def rpcPortOf (rpcUrl : String) : String :=
  let last := (jsSplit rpcUrl ':').getLastD ""
  if last = "" then "3050" else last

/-- Content written to the installed module's `.env` file. -/
def envFileContent (latestVersion : String) (l2Network : L2Network) : String :=
  "VERSION=" ++ latestVersion ++ osEOL ++ "RPC_PORT=" ++ rpcPortOf l2Network.rpcUrl

/-- Source's `applyAppConfig`: the local config write may throw raw, and a
truthy `docker cp` command error is re-thrown with a fixed message. -/
def applyAppConfig (env : InstallEnv) : Except String Unit :=
  match env.writeAppConfig with
  | .error e => .error e
  | .ok _ =>
    match env.dockerCpError with
    | some commandError =>
      .error ("Error while copying app config to the app container: " ++ commandError)
    | none => .ok ()

/-- Body of the `try` block of `install()`: steps run in source order, the
first failure aborts, and only the final step writes `{version, l2Network}`
into the persisted config. -/
def installBody (env : InstallEnv) (cfg : ModuleConfig) : InstallResult :=
  match env.getNodeInfoL2 with
  | .error e => ⟨cfg, none, .error e⟩
  | .ok l2Network =>
    match env.getLatestReleaseVersion with
    | .error e => ⟨cfg, none, .error e⟩
    | .ok latestVersion =>
      match env.ensureDataDir with
      | .error e => ⟨cfg, none, .error e⟩
      | .ok _ =>
        match env.copyComposeFile with
        | .error e => ⟨cfg, none, .error e⟩
        | .ok _ =>
          match env.writeEnvFile with
          | .error e => ⟨cfg, none, .error e⟩
          | .ok _ =>
            let written := some (envFileContent latestVersion l2Network)
            match env.composeCreate with
            | .error e => ⟨cfg, written, .error e⟩
            | .ok _ =>
              match applyAppConfig env with
              | .error e => ⟨cfg, written, .error e⟩
              | .ok _ =>
                ⟨{ cfg with version := some latestVersion, l2Network := some l2Network },
                 written, .ok ()⟩

/-- Replacement error thrown when the caught error mentions a permission
problem. -/
def permissionErrorMessage : String :=
  "Not enough permissions to create necessary files. " ++
  "Please run console in administrator mode and try again."

/-- Source's `install()`: the `try` body plus the `catch` that replaces any
error whose string form contains "operation not permitted" and re-throws
every other error unchanged. -/
def install (env : InstallEnv) (cfg : ModuleConfig) : InstallResult :=
  let r := installBody env cfg
  match r.result with
  | .ok _ => r
  | .error e =>
    { r with
      result := .error
        (if jsIncludes e "operation not permitted" then permissionErrorMessage else e) }

/-! ## Concrete scenarios used by counterexamples and witnesses -/

/-- Empty persisted config, the state before any install. -/
def cfg0 : ModuleConfig := ⟨none, none⟩

/-- Scenario: the data-directory creation fails with a filesystem permission
error. -/
def envPermDenied : InstallEnv :=
  ⟨.ok ⟨270, "http://localhost:3050"⟩, .ok "v2.4.0",
   .error "Error: EPERM: operation not permitted, mkdir", .ok (), .ok (), .ok (), .ok (), none⟩

/-- Scenario: file provisioning succeeds, but container creation fails with a
daemon error that happens to contain "operation not permitted". -/
def envDockerPerm : InstallEnv :=
  ⟨.ok ⟨270, "http://localhost:3050"⟩, .ok "v2.4.0", .ok (), .ok (), .ok (),
   .error "Error response from daemon: operation not permitted", .ok (), none⟩

/-- Scenario: every step succeeds, and the resolved network's RPC URL has no
port suffix. -/
def envNoPort : InstallEnv :=
  ⟨.ok ⟨270, "http://localhost"⟩, .ok "v2.4.0", .ok (), .ok (), .ok (), .ok (), .ok (), none⟩

/-! ## Version comparison: refinement of the loop against the spec reading -/

/-- The indexed loop agrees, from any start index, with searching the index
range for the first position where the padded components differ. -/
theorem compareLoop_eq_find (v1 v2 : List Int) :
    ∀ (fuel i : Nat),
      compareLoop v1 v2 i fuel =
        match (List.range' i fuel).find? (fun j => v1.getD j 0 != v2.getD j 0) with
        | some j => if v1.getD j 0 > v2.getD j 0 then 1 else -1
        | none => 0 := by
  intro fuel
  induction fuel with
  | zero => intro i; simp [compareLoop]
  | succ n ih =>
    intro i
    rw [List.range'_succ, List.find?_cons]
    by_cases h : v1.getD i 0 = v2.getD i 0
    · have hp : (v1.getD i 0 != v2.getD i 0) = false := bne_eq_false_iff_eq.mpr h
      simp only [hp]
      rw [compareLoop]
      simp only [h, lt_self_iff_false, if_false, gt_iff_lt]
      exact ih (i + 1)
    · have hp : (v1.getD i 0 != v2.getD i 0) = true := bne_iff_ne.mpr h
      simp only [hp]
      rw [compareLoop]
      rcases lt_trichotomy (v1.getD i 0) (v2.getD i 0) with hlt | heq | hgt
      · have h1 : ¬ (v1.getD i 0 > v2.getD i 0) := not_lt.mpr hlt.le
        simp only [if_neg h1, if_pos hlt]
      · exact absurd heq h
      · simp only [if_pos hgt]

/-- The source's comparison of component lists equals the spec-side one. -/
theorem cmpComponents_eq_spec (v1 v2 : List Int) :
    cmpComponents v1 v2 = specCmpList v1 v2 := by
  rw [cmpComponents, specCmpList, compareLoop_eq_find, List.range_eq_range']

/-- C5: compareVersions splits each input string on '.' into numeric
components and compares them component-wise up to the longer sequence's
length with missing trailing components read as 0 (the spec-side definition
`specCompareVersions`), and on the given concrete inputs returns 0, -1, 1. -/
theorem compareSemanticVersions_spec :
    (∀ version1 version2 : String,
        compareSemanticVersions version1 version2 = specCompareVersions version1 version2) ∧
    compareSemanticVersions "1.0" "1.0.0" = 0 ∧
    compareSemanticVersions "1.2.3" "1.2.10" = -1 ∧
    compareSemanticVersions "2.0.0" "1.9.9" = 1 :=
  ⟨fun version1 version2 =>
      cmpComponents_eq_spec (parseVersion version1) (parseVersion version2),
   by decide, by decide, by decide⟩

/-! ## Readiness monitor theorems -/

/-- The first-success predicate unfolds over a cons cell. -/
theorem succeedsAt_cons (it : IterInput) (rest : List IterInput) :
    succeedsAt (it :: rest) ↔
      iterSucceeds it = true ∨ (iterContinues it = true ∧ succeedsAt rest) := by
  constructor
  · rintro ⟨i, hi, hs, hb⟩
    cases i with
    | zero => exact Or.inl (by simpa using hs)
    | succ k =>
      refine Or.inr ⟨by simpa using hb 0 (Nat.succ_pos k), k, ?_, by simpa using hs, ?_⟩
      · simpa using hi
      · intro j hj
        simpa using hb (j + 1) (Nat.succ_lt_succ hj)
  · rintro (hs | ⟨hc, i, hi, hs, hb⟩)
    · exact ⟨0, by simp, by simpa using hs, fun j hj => absurd hj (Nat.not_lt_zero j)⟩
    · refine ⟨i + 1, by simpa using Nat.succ_lt_succ hi, by simpa using hs, ?_⟩
      intro j hj
      cases j with
      | zero => simpa using hc
      | succ k => simpa using hb k (Nat.succ_lt_succ_iff.mp hj)

/-- C6: the readiness loop returns successfully exactly when some reached
iteration observes equal API and node heights, every earlier iteration having
merely retried; and an iteration whose two heights differ does not exit, the
loop repeating on the remaining iterations. -/
theorem waitForFullIndexing_success_iff :
    (∀ l : List IterInput, waitForFullIndexing l = .success ↔ succeedsAt l) ∧
    (∀ (it : IterInput) (rest : List IterInput) (response : ApiResponse) (n : Int),
        it.apiFetch = .ok response → getNodeLatestBlockNumber it.nodeFetch = .ok n →
        getApiLatestBlockNumber response ≠ n →
        waitForFullIndexing (it :: rest) = waitForFullIndexing rest) := by
  constructor
  · intro l
    induction l with
    | nil => simp [waitForFullIndexing, succeedsAt]
    | cons it rest ih =>
      rw [succeedsAt_cons]
      rcases h1 : it.apiFetch with e | response
      · have hs : iterSucceeds it = false := by simp [iterSucceeds, h1]
        have hc : iterContinues it = true := by simp [iterContinues, h1]
        simp [waitForFullIndexing, h1, hs, hc, ih]
      · rcases h2 : getNodeLatestBlockNumber it.nodeFetch with e | n
        · have hs : iterSucceeds it = false := by simp [iterSucceeds, h1, h2]
          have hc : iterContinues it = false := by simp [iterContinues, h1, h2]
          simp [waitForFullIndexing, h1, h2, hs, hc]
        · by_cases h3 : getApiLatestBlockNumber response = n
          · have hs : iterSucceeds it = true := by simp [iterSucceeds, h1, h2, h3]
            simp [waitForFullIndexing, h1, h2, h3, hs]
          · have hs : iterSucceeds it = false := by simp [iterSucceeds, h1, h2, h3]
            have hc : iterContinues it = true := by simp [iterContinues, h1, h2, h3]
            simp [waitForFullIndexing, h1, h2, h3, hs, hc, ih]
  · intro it rest response n h1 h2 h3
    simp [waitForFullIndexing, h1, h2, h3]

/-- C2: a failed indexing-API query is swallowed — the loop's outcome on the
remaining iterations is unchanged, so the failure is never surfaced — while a
failed target-network query, or a result that does not parse as a number,
makes the loop throw immediately with the wrapped fatal error. -/
theorem readiness_retry_policy :
    (∀ (it : IterInput) (rest : List IterInput) (e : String),
        it.apiFetch = .error e → waitForFullIndexing (it :: rest) = waitForFullIndexing rest) ∧
    (∀ (it : IterInput) (rest : List IterInput) (response : ApiResponse) (e : String),
        it.apiFetch = .ok response → it.nodeFetch = .error e →
        waitForFullIndexing (it :: rest) =
          .fatal ("Failed to get latest block number from L2 node: " ++ e)) ∧
    (∀ (it : IterInput) (rest : List IterInput) (response : ApiResponse) (result : String),
        it.apiFetch = .ok response → it.nodeFetch = .ok result → jsParseIntHex result = none →
        waitForFullIndexing (it :: rest) =
          .fatal ("Failed to get latest block number from L2 node: " ++
            "Error: Unexpected response from L2 node: " ++ result)) := by
  refine ⟨?_, ?_, ?_⟩
  · intro it rest e h1
    simp [waitForFullIndexing, h1]
  · intro it rest response e h1 h2
    simp [waitForFullIndexing, getNodeLatestBlockNumber, h1, h2]
  · intro it rest response result h1 h2 h3
    simp [waitForFullIndexing, getNodeLatestBlockNumber, h1, h2, h3]

/-- C9: an empty API block list reads as indexed height 0 rather than
failing, and an iteration whose node height also parses to 0 exits the loop
successfully at once. -/
theorem empty_index_height_zero :
    getApiLatestBlockNumber ⟨[]⟩ = 0 ∧
    (∀ (rest : List IterInput) (result : String), jsParseIntHex result = some 0 →
        waitForFullIndexing (⟨.ok ⟨[]⟩, .ok result⟩ :: rest) = .success) := by
  constructor
  · rfl
  · intro rest result h
    simp [waitForFullIndexing, getNodeLatestBlockNumber, h, getApiLatestBlockNumber]

/-! ## isInstalled / isRunning theorems -/

/-- C3 (amended): isInstalled() is true exactly when the stored version is
present and non-empty (an empty string is JS-falsy and read as absent), a
network is stored, the resolved network's chainId and rpcUrl equal the stored
values, and the orchestrator reports at least one container. -/
theorem isInstalled_characterization :
    ∀ (cfg : ModuleConfig) (l2Network : L2Network) (status : List ContainerStatus),
      isInstalled cfg l2Network status = true ↔
        ∃ version stored, cfg.version = some version ∧ version ≠ "" ∧
          cfg.l2Network = some stored ∧ l2Network.chainId = stored.chainId ∧
          l2Network.rpcUrl = stored.rpcUrl ∧ status ≠ [] := by
  intro cfg cur status
  rcases cfg with ⟨v, net⟩
  rcases v with _ | version
  · simp [isInstalled]
  · rcases net with _ | stored
    · simp [isInstalled]
    · by_cases hv : version = ""
      · simp [isInstalled, hv]
      · by_cases hc : cur.chainId = stored.chainId
        · by_cases hr : cur.rpcUrl = stored.rpcUrl
          · simp [isInstalled, hv, hc, hr, List.length_eq_zero]
          · simp [isInstalled, hv, hc, hr]
        · simp [isInstalled, hv, hc]

/-- C3 counterexample: a present-but-empty stored version with a matching
stored network and a known container — every condition of the claim holds,
yet isInstalled() returns false. -/
theorem isInstalled_empty_version_cex :
    ((⟨some "", some ⟨270, "http://localhost:3050"⟩⟩ : ModuleConfig).version.isSome = true) ∧
    isInstalled ⟨some "", some ⟨270, "http://localhost:3050"⟩⟩ ⟨270, "http://localhost:3050"⟩
      [⟨true⟩] = false := by
  exact ⟨rfl, rfl⟩

/-- C10: isRunning() is exactly "some reported container is running" — it
reads nothing but the status list — and in the reachable state where a
container runs while the stored network differs from the resolved one,
isRunning() is true while isInstalled() is false. -/
theorem isRunning_independent_of_config :
    (∀ status : List ContainerStatus, isRunning status = true ↔ ∃ s ∈ status, s.isRunning = true) ∧
    isRunning [⟨true⟩] = true ∧
    isInstalled ⟨some "v2.4.0", some ⟨270, "http://localhost:3050"⟩⟩
      ⟨271, "http://localhost:8011"⟩ [⟨true⟩] = false := by
  refine ⟨?_, by decide, by decide⟩
  intro status
  simp [isRunning, List.any_eq_true]

/-! ## cleanupIndexedData theorem -/

/-- C4: whatever `docker volume ls` reported, every volume-removal command
cleanupIndexedData issues names exactly the computed volume
`zkcli-block-explorer_postgres`; no other volume is ever named. -/
theorem cleanupIndexedData_volume_safety :
    ∀ (volumesLsOutput : Option String) (cmd : String),
      cmd ∈ cleanupIndexedData volumesLsOutput →
      jsStartsWith cmd "docker volume rm " = true →
      cmd = "docker volume rm zkcli-block-explorer_postgres" := by
  intro out cmd hmem hpre
  have hsplit : cmd = "docker-compose rm -fsv worker" ∨ cmd = "docker-compose rm -fsv api" ∨
      cmd = "docker-compose rm -fsv postgres" ∨ cmd = "docker volume ls" ∨
      cmd ∈ cleanupVolumeRemovals out := by
    simpa [cleanupIndexedData] using hmem
  rcases hsplit with h | h | h | h | h
  · subst h; exact absurd hpre (by decide)
  · subst h; exact absurd hpre (by decide)
  · subst h; exact absurd hpre (by decide)
  · subst h; exact absurd hpre (by decide)
  · rcases out with _ | volumes
    · simp [cleanupVolumeRemovals] at h
    · simp only [cleanupVolumeRemovals] at h
      split at h
      · simp only [List.mem_cons, List.not_mem_nil, or_false] at h
        subst h
        decide
      · simp at h

/-- C4 witness: with a listing holding the computed volume alongside an
unrelated one, the removal command is issued and is the exact computed
name. -/
theorem cleanupIndexedData_volume_safety_witness :
    ("docker volume rm zkcli-block-explorer_postgres" ∈
        cleanupIndexedData (some "local other_volume\nlocal zkcli-block-explorer_postgres")) ∧
      ("docker volume rm zkcli-block-explorer_postgres" : String) =
        "docker volume rm zkcli-block-explorer_postgres" :=
  ⟨by decide,
   cleanupIndexedData_volume_safety
     (some "local other_volume\nlocal zkcli-block-explorer_postgres")
     "docker volume rm zkcli-block-explorer_postgres" (by decide) (by decide)⟩

/-! ## install theorems -/

/-- C1: a failing install() leaves the persisted config exactly as it was,
and a completed install() writes exactly the resolved version and network. -/
theorem install_config_atomic :
    ∀ (env : InstallEnv) (cfg : ModuleConfig),
      (∀ e, (install env cfg).result = .error e → (install env cfg).config = cfg) ∧
      ((install env cfg).result = .ok () →
        ∃ version l2Network, env.getNodeInfoL2 = .ok l2Network ∧
          env.getLatestReleaseVersion = .ok version ∧
          (install env cfg).config = ⟨some version, some l2Network⟩) := by
  intro env cfg
  obtain ⟨gn, gv, dda, ccf, wef, dcc, wac, cpe⟩ := env
  cases gn <;> cases gv <;> cases dda <;> cases ccf <;> cases wef <;> cases dcc <;>
    cases wac <;> cases cpe <;>
    simp [install, installBody, applyAppConfig]

/-- C7 (amended): install() replaces exactly those errors whose string form
contains "operation not permitted" — whichever step raised them — with the
elevated-privileges message, and re-throws every other error unchanged. -/
theorem install_error_classification :
    ∀ (env : InstallEnv) (cfg : ModuleConfig) (e : String),
      (installBody env cfg).result = .error e →
      ((jsIncludes e "operation not permitted" = true →
          (install env cfg).result = .error permissionErrorMessage) ∧
       (jsIncludes e "operation not permitted" = false →
          (install env cfg).result = .error e)) := by
  intro env cfg e h
  constructor <;> intro hinc <;> simp [install, h, hinc]

/-- C7 witness: a permission failure while creating the data directory is
re-thrown as the elevated-privileges message. -/
theorem install_error_classification_witness :
    (install envPermDenied cfg0).result = .error permissionErrorMessage :=
  (install_error_classification envPermDenied cfg0
      "Error: EPERM: operation not permitted, mkdir" rfl).1 (by decide)

/-- C7 counterexample: a container-creation (not provisioning) error whose
text contains "operation not permitted" is not propagated unchanged — it is
rewritten to the permission message. -/
theorem install_rewrites_container_creation_error :
    (install envDockerPerm cfg0).result = .error permissionErrorMessage ∧
    permissionErrorMessage ≠ "Error response from daemon: operation not permitted" := by
  constructor
  · rfl
  · decide

/-- C8 (amended): install() writes `VERSION=..` and `RPC_PORT=..` to the
environment file, where the port is the last ':'-separated segment of the
resolved rpcUrl and the fixed fallback "3050" is used exactly when that last
segment is empty. -/
theorem install_env_file :
    (∀ (env : InstallEnv) (cfg : ModuleConfig) (l2Network : L2Network) (version : String),
        env.getNodeInfoL2 = .ok l2Network → env.getLatestReleaseVersion = .ok version →
        env.ensureDataDir = .ok () → env.copyComposeFile = .ok () → env.writeEnvFile = .ok () →
        (install env cfg).envFileWritten =
          some ("VERSION=" ++ version ++ osEOL ++ "RPC_PORT=" ++ rpcPortOf l2Network.rpcUrl)) ∧
    (∀ rpcUrl : String,
        ((jsSplit rpcUrl ':').getLastD "" ≠ "" →
          rpcPortOf rpcUrl = (jsSplit rpcUrl ':').getLastD "") ∧
        ((jsSplit rpcUrl ':').getLastD "" = "" → rpcPortOf rpcUrl = "3050")) := by
  constructor
  · intro env cfg net version h1 h2 h3 h4 h5
    obtain ⟨gn, gv, dda, ccf, wef, dcc, wac, cpe⟩ := env
    simp only at h1 h2 h3 h4 h5
    subst h1 h2 h3 h4 h5
    cases dcc <;> cases wac <;> cases cpe <;>
      simp [install, installBody, applyAppConfig, envFileContent]
  · intro rpcUrl
    refine ⟨fun h => ?_, fun h => ?_⟩
    · simp only [rpcPortOf]
      rw [if_neg h]
    · simp only [rpcPortOf]
      rw [if_pos h]

/-- C8 counterexample: for the portless URL "http://localhost" the written
RPC_PORT is "//localhost", not the fixed fallback "3050". -/
theorem install_rpc_port_fallback_cex :
    (install envNoPort cfg0).envFileWritten =
      some "VERSION=v2.4.0\nRPC_PORT=//localhost" ∧
    ("//localhost" : String) ≠ "3050" := by
  constructor
  · decide
  · decide

end BlockExplorer
